import Mathlib

/-!
Shallow embedding of the Tracker repository's core logic
(src/app/class_gsheets_handler.py and src/app/class_telegram_bot.py):
the daily time-record upsert, last-action lookup, user-configuration
round trip, duration formatting, and the per-user session state machine
of the Telegram bot. Definitions mirror the Python source; theorems
settle the specification's claims about them.
-/

namespace Tracker

/-- The two time-clock operations passed as `action` to `add_time_record`. -/
inductive TrackAction
  | clock_in
  | clock_out
  deriving DecidableEq

/-- One data row of a user timesheet, in the column layout written by
`add_time_record`: Date, clock_in, clock_out, Latitude In, Longitude In,
Latitude Out, Longitude Out, Duration, Description. All cells are strings,
the empty string standing for a blank cell. -/
structure TimeRecord where
  date : String
  clock_in : String
  clock_out : String
  latIn : String
  lonIn : String
  latOut : String
  lonOut : String
  duration : String
  description : String
  deriving DecidableEq, Inhabited

/-- The spreadsheet Duration formula written on a clock-out update:
`=TEXT(C{row}-B{row},"[h]:mm:ss")` for the 1-based sheet row. -/
def durationFormula (row : Nat) : String :=
  "=TEXT(C" ++ toString row ++ "-B" ++ toString row ++ ",\"[h]:mm:ss\")"

/-- `GsheetsHandler.add_time_record`: scan all records for one whose Date
equals today's date string; if found, rewrite that row in place (keeping the
columns the action does not touch), else append a new row after the last
record. Records model the list returned by `get_all_records`, so list index
`i` is sheet row `i + 2`; the returned number is the sheet row written.
`latitude or ""` of the source becomes `Option.getD "" `. -/
def add_time_record (records : List TimeRecord) (action : TrackAction)
    (date_str time_str : String) (latitude longitude : Option String) :
    List TimeRecord × Nat :=
  match records.findIdx? (fun r => r.date == date_str) with
  | some i =>
    let existing_row := i + 2
    let current := records.getD i default
    let row_data : TimeRecord :=
      match action with
      | .clock_in =>
        { date := date_str
          clock_in := time_str
          clock_out := current.clock_out
          latIn := latitude.getD ""
          lonIn := longitude.getD ""
          latOut := current.latOut
          lonOut := current.lonOut
          duration := current.duration
          description := current.description }
      | .clock_out =>
        { date := date_str
          clock_in := current.clock_in
          clock_out := time_str
          latIn := current.latIn
          lonIn := current.lonIn
          latOut := latitude.getD ""
          lonOut := longitude.getD ""
          duration := durationFormula existing_row
          description := current.description }
    (records.set i row_data, existing_row)
  | none =>
    let row_data : TimeRecord :=
      match action with
      | .clock_in =>
        { date := date_str
          clock_in := time_str
          clock_out := ""
          latIn := latitude.getD ""
          lonIn := longitude.getD ""
          latOut := ""
          lonOut := ""
          duration := ""
          description := "" }
      | .clock_out =>
        { date := date_str
          clock_in := ""
          clock_out := time_str
          latIn := ""
          lonIn := ""
          latOut := latitude.getD ""
          lonOut := longitude.getD ""
          duration := ""
          description := "" }
    (records ++ [row_data], records.length + 2)

/-- `GsheetsHandler.get_last_action`: `none` models a missing worksheet
(`WorksheetNotFound`); otherwise sort all records by Date string descending
(Python `list.sort(key=..., reverse=True)`, a stable sort on the lexical
string order) and inspect the first row of that order. -/
def get_last_action (sheet : Option (List TimeRecord)) :
    Option (String × String) :=
  match sheet with
  | none => none
  | some all_records =>
    if all_records.isEmpty then none
    else
      match (all_records.mergeSort (fun a b => decide (b.date ≤ a.date))).head? with
      | none => none
      | some latest_record =>
        if latest_record.clock_out ≠ "" then
          some ("clock_out", latest_record.clock_out)
        else if latest_record.clock_in ≠ "" then
          some ("clock_in", latest_record.clock_in)
        else none

/-- One row of the `User_Config` sheet, in the column layout of
`save_user_config`: User ID, Username, Project Name, Project Location,
Contractor Name, Lunch Duration, Last Updated. -/
structure ConfigRow where
  user_id : String
  username : String
  project_name : String
  project_location : String
  contractor_name : String
  lunch_duration : String
  last_updated : String
  deriving DecidableEq, Inhabited

/-- The `temp_config` dictionary a session accumulates during the config
wizard: optional fields, `none` for a key not yet entered, so `config.get(k, "")`
of the source becomes `Option.getD "" `. -/
structure TempConfig where
  project_name : Option String := none
  project_location : Option String := none
  contractor_name : Option String := none
  lunch_duration : Option String := none
  username : Option String := none
  deriving DecidableEq, Inhabited

/-- The dictionary `get_user_config` returns for a found user. -/
structure UserConfig where
  username : String
  project_name : String
  project_location : String
  contractor_name : String
  lunch_duration : String
  last_updated : String
  deriving DecidableEq, Inhabited

/-- `GsheetsHandler.save_user_config`: find the first config row whose User ID
matches; overwrite it in place, else append after the last record. `now_str`
is `datetime.now().strftime('%Y-%m-%d %H:%M:%S')`, the Last Updated stamp. -/
def save_user_config (sheet : List ConfigRow) (user_id : String)
    (config : TempConfig) (now_str : String) : List ConfigRow :=
  let config_data : ConfigRow :=
    { user_id := user_id
      username := config.username.getD ""
      project_name := config.project_name.getD ""
      project_location := config.project_location.getD ""
      contractor_name := config.contractor_name.getD ""
      lunch_duration := config.lunch_duration.getD ""
      last_updated := now_str }
  match sheet.findIdx? (fun r => r.user_id == user_id) with
  | some i => sheet.set i config_data
  | none => sheet ++ [config_data]

/-- `GsheetsHandler.get_user_config`: `none` models a missing `User_Config`
worksheet; otherwise return the first row whose User ID matches, as a
field dictionary, or `none` when no row matches. -/
def get_user_config (sheet : Option (List ConfigRow)) (user_id : String) :
    Option UserConfig :=
  match sheet with
  | none => none
  | some rows =>
    match rows.find? (fun r => r.user_id == user_id) with
    | some r =>
      some { username := r.username
             project_name := r.project_name
             project_location := r.project_location
             contractor_name := r.contractor_name
             lunch_duration := r.lunch_duration
             last_updated := r.last_updated }
    | none => none

/-- The wizard position stored in `BotUser.config_step`
(the strings "project_name", "project_location", "contractor_name",
"lunch_duration"; `Option.none` models Python `None`). -/
inductive ConfigStep
  | project_name
  | project_location
  | contractor_name
  | lunch_duration
  deriving DecidableEq

/-- The start-time argument of `TelegramBot._calculate_duration`: Python
`None`, a string (carrying the result of `datetime.fromisoformat`, `none`
when parsing raises), a naive datetime or a timezone-aware datetime.
Datetimes are modelled as epoch seconds (for a naive one, the epoch value
after `localize` interprets it in the Berlin timezone). -/
inductive StartTime
  | null
  | str (parsed : Option Int)
  | naive (t : Int)
  | aware (t : Int)
  deriving DecidableEq

/-- The arithmetic tail of `_calculate_duration`: `duration = now - start`;
a negative duration reports "0h 0m"; otherwise
`hours = total_seconds // 3600`, `minutes = (total_seconds % 3600) // 60`,
rendered as an f-string. -/
def durationFrom (t now : Int) : String :=
  let duration := now - t
  if duration < 0 then "0h 0m"
  else
    let total_seconds := duration.toNat
    let hours := total_seconds / 3600
    let minutes := total_seconds % 3600 / 60
    s!"{hours}h {minutes}m"

/-- `TelegramBot._calculate_duration` at its public interface: `None` and an
unparseable string return "0h 0m" from the early guards; a parsed string,
naive or aware datetime falls through to the subtraction against the current
Berlin time `now`. -/
def calculate_duration (start_time : StartTime) (now : Int) : String :=
  match start_time with
  | .null => "0h 0m"
  | .str Option.none => "0h 0m"
  | .str (Option.some t) => durationFrom t now
  | .naive t => durationFrom t now
  | .aware t => durationFrom t now

/-- The mutable per-user session fields of `BotUser`. -/
structure Session where
  userId : String
  username : String
  is_clocked_in : Bool
  last_clock_in : Option Int
  awaiting_location : Bool
  pending_action : Option TrackAction
  config_step : Option ConfigStep
  temp_config : TempConfig
  deriving DecidableEq

/-- A fresh `BotUser.__init__` session for a user. -/
def initSession (uid uname : String) : Session :=
  { userId := uid
    username := uname
    is_clocked_in := false
    last_clock_in := none
    awaiting_location := false
    pending_action := none
    config_step := none
    temp_config := {} }

/-- The three inline-button callback payloads `button_callback` handles. -/
inductive CbAction
  | clock_in
  | clock_out
  | config
  deriving DecidableEq

/-- The state `TelegramBot.config_command` leaves a session in: enter the
wizard at the project-name step with an empty `temp_config`. The handler
touches no other session field (in particular it leaves `awaiting_location`
and `pending_action` as they were). -/
def config_command (s : Session) : Session :=
  { s with config_step := some .project_name, temp_config := {} }

/-- The session effect of `TelegramBot.button_callback`. A clock-in press
while already clocked in, and a clock-out press while not clocked in, only
send an advisory message; otherwise the press arms the location request.
The config button enters the wizard like `/config`. No branch touches the
record store. -/
def button_callback (s : Session) (a : CbAction) : Session :=
  match a with
  | .clock_in =>
    if s.is_clocked_in then s
    else { s with awaiting_location := true, pending_action := some .clock_in }
  | .clock_out =>
    if !s.is_clocked_in then s
    else { s with awaiting_location := true, pending_action := some .clock_out }
  | .config =>
    { s with config_step := some .project_name, temp_config := {} }

/-- The session and timesheet effect of `TelegramBot.location_handler`:
ignored when no location is awaited; otherwise the pending action is written
through `TimeTracker.add_record` / `add_time_record` and the session returns
to idle (`date_str`/`time_str` are today's strings, `now` the clock-in
timestamp kept in `last_clock_in`). -/
def location_handler (s : Session) (timesheet : List TimeRecord)
    (latitude longitude date_str time_str : String) (now : Int) :
    Session × List TimeRecord :=
  if !s.awaiting_location then (s, timesheet)
  else
    match s.pending_action with
    | some .clock_in =>
      let sheet' :=
        (add_time_record timesheet .clock_in date_str time_str
          (some latitude) (some longitude)).1
      ({ s with is_clocked_in := true, last_clock_in := some now,
                awaiting_location := false, pending_action := none }, sheet')
    | some .clock_out =>
      let sheet' :=
        (add_time_record timesheet .clock_out date_str time_str
          (some latitude) (some longitude)).1
      ({ s with is_clocked_in := false, last_clock_in := none,
                awaiting_location := false, pending_action := none }, sheet')
    | none =>
      ({ s with awaiting_location := false, pending_action := none }, timesheet)

/-- The session and config-sheet effect of `TelegramBot.text_handler`: while
`config_step` is set the text is consumed by the wizard, advancing one step;
the fourth step stamps the Telegram username into `temp_config`, saves the
configuration through `save_user_config` and resets the wizard state. With
no wizard active the handler only replies (a location prompt or the main
keyboard) and changes nothing. -/
def text_handler (s : Session) (configSheet : List ConfigRow)
    (text now_str : String) : Session × List ConfigRow :=
  match s.config_step with
  | some .project_name =>
    ({ s with temp_config := { s.temp_config with project_name := some text },
              config_step := some .project_location }, configSheet)
  | some .project_location =>
    ({ s with temp_config := { s.temp_config with project_location := some text },
              config_step := some .contractor_name }, configSheet)
  | some .contractor_name =>
    ({ s with temp_config := { s.temp_config with contractor_name := some text },
              config_step := some .lunch_duration }, configSheet)
  | some .lunch_duration =>
    let finalConfig :=
      { s.temp_config with lunch_duration := some text,
                           username := some s.username }
    ({ s with config_step := none, temp_config := {} },
     save_user_config configSheet s.userId finalConfig now_str)
  | none => (s, configSheet)

/-- One user's view of the system: the session plus the two sheets the
handlers write. -/
structure World where
  session : Session
  timesheet : List TimeRecord
  configSheet : List ConfigRow
  deriving DecidableEq

/-- The inbound chat events the claims are about, with the payloads the
handlers read (clock times travel with the event). -/
inductive Event
  | configCmd
  | callback (a : CbAction)
  | location (latitude longitude date_str time_str : String) (now : Int)
  | text (t : String) (now_str : String)

/-- The event dispatcher: route one inbound event to its handler. -/
def step (w : World) (e : Event) : World :=
  match e with
  | .configCmd => { w with session := config_command w.session }
  | .callback a => { w with session := button_callback w.session a }
  | .location latitude longitude date_str time_str now =>
    let p := location_handler w.session w.timesheet
      latitude longitude date_str time_str now
    { w with session := p.1, timesheet := p.2 }
  | .text t now_str =>
    let p := text_handler w.session w.configSheet t now_str
    { w with session := p.1, configSheet := p.2 }

/-- Rows of a sheet whose Date cell equals `d`. -/
def countDate (d : String) (records : List TimeRecord) : Nat :=
  (records.filter (fun r => r.date == d)).length

/-- One clock event of a single calendar day, as fed to `add_time_record`. -/
structure DayEvent where
  action : TrackAction
  time_str : String
  latitude : Option String
  longitude : Option String

/-- Fold a day's clock events over a timesheet through `add_time_record`,
all sharing the date string `d`. -/
def runDay (records : List TimeRecord) (d : String) (evs : List DayEvent) :
    List TimeRecord :=
  evs.foldl
    (fun recs e => (add_time_record recs e.action d e.time_str e.latitude e.longitude).1)
    records

/-! ### Helper lemmas -/

theorem getD_mem {α : Type} [Inhabited α] {l : List α} {i : Nat}
    (hi : i < l.length) : l.getD i default ∈ l := by
  rw [List.getD_eq_getElem?_getD, List.getElem?_eq_getElem hi]
  exact List.getElem_mem hi

theorem getD_set_self {α : Type} [Inhabited α] {l : List α} {i : Nat} {a : α}
    (hi : i < l.length) : (l.set i a).getD i default = a := by
  rw [List.getD_eq_getElem?_getD, List.getElem?_set_self hi]
  rfl

theorem getD_set_ne {α : Type} [Inhabited α] {l : List α} {i j : Nat} {a : α}
    (h : i ≠ j) : (l.set i a).getD j default = l.getD j default := by
  rw [List.getD_eq_getElem?_getD, List.getElem?_set_ne h,
    ← List.getD_eq_getElem?_getD]

theorem findIdx?_some_getD {α : Type} [Inhabited α] {p : α → Bool}
    {l : List α} {i : Nat} (h : l.findIdx? p = some i) :
    i < l.length ∧ p (l.getD i default) = true ∧
      ∀ j, j < i → p (l.getD j default) = false := by
  obtain ⟨hi, hp, hlt⟩ := List.findIdx?_eq_some_iff_getElem.mp h
  refine ⟨hi, ?_, ?_⟩
  · rw [List.getD_eq_getElem?_getD, List.getElem?_eq_getElem hi]
    simpa using hp
  · intro j hj
    have hjl : j < l.length := by omega
    have := hlt j hj
    rw [List.getD_eq_getElem?_getD, List.getElem?_eq_getElem hjl]
    simpa using this

theorem length_filter_set {α : Type} [Inhabited α] (p : α → Bool) (l : List α)
    (i : Nat) (a : α) (hi : i < l.length)
    (hpa : p a = p (l.getD i default)) :
    ((l.set i a).filter p).length = (l.filter p).length := by
  induction l generalizing i with
  | nil => simp at hi
  | cons x xs ih =>
    cases i with
    | zero =>
      simp only [List.getD_cons_zero] at hpa
      simp only [List.set_cons_zero, List.filter_cons, hpa]
      cases p x <;> simp
    | succ n =>
      simp only [List.getD_cons_succ] at hpa
      simp only [List.set_cons_succ, List.filter_cons]
      have hrec := ih n (by simpa using hi) hpa
      cases p x <;> simp [hrec]

theorem find?_set_getD {α : Type} [Inhabited α] (p : α → Bool) (l : List α)
    (i : Nat) (a : α) (hpa : p a = true)
    (hlt : ∀ j, j < i → p (l.getD j default) = false) :
    i < l.length → (l.set i a).find? p = some a := by
  induction l generalizing i with
  | nil => intro hi; simp at hi
  | cons x xs ih =>
    intro hi
    cases i with
    | zero => simp [List.find?_cons_of_pos _ hpa]
    | succ n =>
      have hx : p x = false := by simpa using hlt 0 (Nat.succ_pos n)
      rw [List.set_cons_succ, List.find?_cons_of_neg _ (by simp [hx])]
      exact ih n (fun j hj => by simpa using hlt (j + 1) (by omega))
        (by simpa using hi)

theorem find?_append_singleton {α : Type} (p : α → Bool) (l : List α) (a : α)
    (hnone : l.find? p = none) (hpa : p a = true) :
    (l ++ [a]).find? p = some a := by
  rw [List.find?_append, hnone]
  simp [List.find?_cons_of_pos _ hpa]

/-! ### Claims -/

/-- C2: the spec claims `awaiting_location` and `config_step` are never both
active; the code violates it. Starting from a fresh session, pressing the
Clock In button arms `awaiting_location`, and a `/config` command then enters
the wizard without clearing it: the resulting session has
`awaiting_location = true` and `config_step = some project_name`
simultaneously. -/
theorem C2_modes_not_exclusive :
    ((step (step { session := initSession "495992751" "Dmitry",
                   timesheet := [], configSheet := [] }
        (.callback .clock_in)) .configCmd).session.awaiting_location = true) ∧
    ((step (step { session := initSession "495992751" "Dmitry",
                   timesheet := [], configSheet := [] }
        (.callback .clock_in)) .configCmd).session.config_step
      = some .project_name) := by
  decide

/-- C5: a clock-in button press while already clocked in, and a clock-out
press while not clocked in, leave the whole world (every session field, the
timesheet and the config sheet) unchanged: the handler only sends an
advisory message. -/
theorem C5_invalid_press_no_effect (w : World) :
    (w.session.is_clocked_in = true → step w (.callback .clock_in) = w) ∧
    (w.session.is_clocked_in = false → step w (.callback .clock_out) = w) := by
  constructor <;> intro h <;> simp [step, button_callback, h]

/-- Witness for C5 at two concrete worlds, one clocked in and one not. -/
theorem C5_invalid_press_no_effect_witness :
    step { session := { initSession "1" "A" with is_clocked_in := true },
           timesheet := [], configSheet := [] } (.callback .clock_in)
      = { session := { initSession "1" "A" with is_clocked_in := true },
          timesheet := [], configSheet := [] } ∧
    step { session := initSession "1" "A",
           timesheet := [], configSheet := [] } (.callback .clock_out)
      = { session := initSession "1" "A",
          timesheet := [], configSheet := [] } :=
  ⟨(C5_invalid_press_no_effect _).1 rfl, (C5_invalid_press_no_effect _).2 rfl⟩

/-- C7: entering the config wizard empties `temp_config` and positions the
wizard at the project-name step; the next three texts advance the step
without touching the config sheet; the fourth text saves the full
configuration (the four entered values plus the Telegram username) through
`save_user_config` and resets `config_step` to `none` with `temp_config`
empty again. -/
theorem C7_config_wizard (w : World) (t1 t2 t3 t4 n1 n2 n3 n4 : String) :
    let w0 := step w .configCmd
    let w1 := step w0 (.text t1 n1)
    let w2 := step w1 (.text t2 n2)
    let w3 := step w2 (.text t3 n3)
    let w4 := step w3 (.text t4 n4)
    w0.session.temp_config = {} ∧
    w0.session.config_step = some .project_name ∧
    w1.configSheet = w.configSheet ∧
    w1.session.config_step = some .project_location ∧
    w2.configSheet = w.configSheet ∧
    w2.session.config_step = some .contractor_name ∧
    w3.configSheet = w.configSheet ∧
    w3.session.config_step = some .lunch_duration ∧
    w4.configSheet = save_user_config w.configSheet w.session.userId
      { project_name := some t1, project_location := some t2,
        contractor_name := some t3, lunch_duration := some t4,
        username := some w.session.username } n4 ∧
    w4.session.config_step = none ∧
    w4.session.temp_config = {} :=
  ⟨rfl, rfl, rfl, rfl, rfl, rfl, rfl, rfl, rfl, rfl, rfl⟩

/-- C6: for a completed pair, the reported duration is the clock-out time
minus the clock-in time floored to whole minutes and rendered `"{H}h {M}m"`
(`H * 60 + M` is exactly the elapsed seconds divided by 60, with `M < 60`);
a negative difference reports exactly "0h 0m". -/
theorem C6_duration_floor (tIn tOut : Int) :
    (tIn ≤ tOut →
      ∃ H M : Nat, calculate_duration (.aware tIn) tOut = s!"{H}h {M}m" ∧
        M < 60 ∧ H * 60 + M = (tOut - tIn).toNat / 60) ∧
    (tOut < tIn → calculate_duration (.aware tIn) tOut = "0h 0m") := by
  constructor
  · intro h
    refine ⟨(tOut - tIn).toNat / 3600, (tOut - tIn).toNat % 3600 / 60, ?_, ?_, ?_⟩
    · rw [calculate_duration, durationFrom, if_neg (by omega)]
    · omega
    · omega
  · intro h
    rw [calculate_duration, durationFrom, if_pos (by omega)]

/-- Witness for C6 at a positive and a negative difference. -/
theorem C6_duration_floor_witness :
    (∃ H M : Nat, calculate_duration (.aware 100) 3820 = s!"{H}h {M}m" ∧
      M < 60 ∧ H * 60 + M = ((3820 : Int) - 100).toNat / 60) ∧
    calculate_duration (.aware 100) 50 = "0h 0m" :=
  ⟨(C6_duration_floor 100 3820).1 (by omega),
   (C6_duration_floor 100 50).2 (by omega)⟩

/-- C9: `_calculate_duration` is total at its interface: every input (None,
a string whether parseable or not, a naive or aware datetime) yields a
string of the shape `"{H}h {M}m"`, and None or an unparseable string yield
exactly "0h 0m". -/
theorem C9_duration_total (start : StartTime) (now : Int) :
    (∃ H M : Nat, calculate_duration start now = s!"{H}h {M}m") ∧
    calculate_duration .null now = "0h 0m" ∧
    calculate_duration (.str Option.none) now = "0h 0m" := by
  refine ⟨?_, rfl, rfl⟩
  have hfrom : ∀ t : Int, ∃ H M : Nat, durationFrom t now = s!"{H}h {M}m" := by
    intro t
    by_cases h : now - t < 0
    · exact ⟨0, 0, by rw [durationFrom, if_pos h]; rfl⟩
    · exact ⟨(now - t).toNat / 3600, (now - t).toNat % 3600 / 60,
        by rw [durationFrom, if_neg h]⟩
  match start with
  | .null => exact ⟨0, 0, rfl⟩
  | .str Option.none => exact ⟨0, 0, rfl⟩
  | .str (Option.some t) => exact hfrom t
  | .naive t => exact hfrom t
  | .aware t => exact hfrom t

/-- For the date the operation writes, `add_time_record` either updates the
one existing row in place or appends the first one: the number of rows for
that date afterwards is `max` of the previous count and 1. -/
theorem countDate_add_time_record (records : List TimeRecord) (a : TrackAction)
    (d t : String) (lat lon : Option String) :
    countDate d (add_time_record records a d t lat lon).1 =
      max (countDate d records) 1 := by
  rcases h : records.findIdx? (fun r => r.date == d) with _ | i
  · have h0 : (records.filter (fun r => r.date == d)).length = 0 := by
      rw [List.length_eq_zero]
      exact List.filter_eq_nil_iff.mpr
        (by intro r hr; simpa using (List.findIdx?_eq_none_iff.mp h) r hr)
    cases a <;>
    · simp only [add_time_record, h]
      unfold countDate
      rw [List.filter_append]
      simp [h0]
  · obtain ⟨hi, hp, -⟩ := findIdx?_some_getD h
    have hpos : 1 ≤ (records.filter (fun r => r.date == d)).length := by
      have hmem : records.getD i default ∈ records.filter (fun r => r.date == d) :=
        List.mem_filter.mpr ⟨getD_mem hi, hp⟩
      exact List.length_pos.mpr (List.ne_nil_of_mem hmem)
    cases a <;>
    · simp only [add_time_record, h]
      unfold countDate
      rw [length_filter_set (fun r => r.date == d) records i _ hi
        (by show (d == d) = ((records.getD i default).date == d)
            rw [hp]
            exact beq_self_eq_true d)]
      omega

/-- C1: for every sequence of clock-in/clock-out events of one calendar day
fed through `add_time_record`, a timesheet that starts with at most one row
for that date still has at most one row for it afterwards: the scan finds
and updates the existing row in place, appending only when none exists. -/
theorem C1_at_most_one_daily_row (records : List TimeRecord) (d : String)
    (evs : List DayEvent) (h : countDate d records ≤ 1) :
    countDate d (runDay records d evs) ≤ 1 := by
  induction evs generalizing records with
  | nil => simpa [runDay] using h
  | cons e evs ih =>
    have hstep :=
      countDate_add_time_record records e.action d e.time_str e.latitude e.longitude
    have hud : runDay records d (e :: evs) =
        runDay (add_time_record records e.action d e.time_str e.latitude e.longitude).1
          d evs := rfl
    rw [hud]
    exact ih _ (by omega)

/-- Witness for C1: a same-day clock-in then clock-out on an empty sheet
leaves at most one row for the day. -/
theorem C1_at_most_one_daily_row_witness :
    countDate "01/01/2024" (runDay [] "01/01/2024"
      [⟨.clock_in, "08:00:00", some "48.1", some "11.5"⟩,
       ⟨.clock_out, "17:00:00", some "48.1", some "11.5"⟩]) ≤ 1 :=
  C1_at_most_one_daily_row [] "01/01/2024" _ (by decide)

/-- C3: when a row for today exists, a clock-in update preserves clock_out,
Latitude Out, Longitude Out, Duration and Description, a clock-out update
preserves clock_in, Latitude In, Longitude In and Description, and every
other row is untouched; when none exists, the appended row carries only the
acting side's fields, the rest blank. -/
theorem C3_update_frame (records : List TimeRecord) (d t : String)
    (lat lon : Option String) :
    (∀ i, records.findIdx? (fun r => r.date == d) = some i →
      (((add_time_record records .clock_in d t lat lon).1.getD i default).clock_out
          = (records.getD i default).clock_out ∧
       ((add_time_record records .clock_in d t lat lon).1.getD i default).latOut
          = (records.getD i default).latOut ∧
       ((add_time_record records .clock_in d t lat lon).1.getD i default).lonOut
          = (records.getD i default).lonOut ∧
       ((add_time_record records .clock_in d t lat lon).1.getD i default).duration
          = (records.getD i default).duration ∧
       ((add_time_record records .clock_in d t lat lon).1.getD i default).description
          = (records.getD i default).description) ∧
      (((add_time_record records .clock_out d t lat lon).1.getD i default).clock_in
          = (records.getD i default).clock_in ∧
       ((add_time_record records .clock_out d t lat lon).1.getD i default).latIn
          = (records.getD i default).latIn ∧
       ((add_time_record records .clock_out d t lat lon).1.getD i default).lonIn
          = (records.getD i default).lonIn ∧
       ((add_time_record records .clock_out d t lat lon).1.getD i default).description
          = (records.getD i default).description) ∧
      (∀ j, j ≠ i →
        (add_time_record records .clock_in d t lat lon).1.getD j default
          = records.getD j default ∧
        (add_time_record records .clock_out d t lat lon).1.getD j default
          = records.getD j default)) ∧
    (records.findIdx? (fun r => r.date == d) = none →
      (add_time_record records .clock_in d t lat lon).1 =
        records ++ [{ date := d, clock_in := t, clock_out := "",
                      latIn := lat.getD "", lonIn := lon.getD "",
                      latOut := "", lonOut := "", duration := "",
                      description := "" }] ∧
      (add_time_record records .clock_out d t lat lon).1 =
        records ++ [{ date := d, clock_in := "", clock_out := t,
                      latIn := "", lonIn := "", latOut := lat.getD "",
                      lonOut := lon.getD "", duration := "",
                      description := "" }]) := by
  constructor
  · intro i hidx
    obtain ⟨hi, -, -⟩ := findIdx?_some_getD hidx
    refine ⟨?_, ?_, ?_⟩
    · simp only [add_time_record, hidx]
      rw [getD_set_self hi]
      exact ⟨rfl, rfl, rfl, rfl, rfl⟩
    · simp only [add_time_record, hidx]
      rw [getD_set_self hi]
      exact ⟨rfl, rfl, rfl, rfl⟩
    · intro j hj
      constructor <;>
      · simp only [add_time_record, hidx]
        exact getD_set_ne (Ne.symm hj)
  · intro hidx
    exact ⟨by simp only [add_time_record, hidx],
           by simp only [add_time_record, hidx]⟩

/-- Witness for C3: a clock-in update on a one-row sheet keeps the stored
clock_out cell, and a clock-out append on an empty sheet populates only the
clock-out side. -/
theorem C3_update_frame_witness :
    ((add_time_record
        [{ date := "01/01/2024", clock_in := "", clock_out := "X", latIn := "",
           lonIn := "", latOut := "", lonOut := "", duration := "",
           description := "note" }]
        .clock_in "01/01/2024" "08:00:00" (some "48.1") (some "11.5")).1.getD
        0 default).clock_out
      = (([{ date := "01/01/2024", clock_in := "", clock_out := "X", latIn := "",
             lonIn := "", latOut := "", lonOut := "", duration := "",
             description := "note" }] :
          List TimeRecord).getD 0 default).clock_out ∧
    (add_time_record ([] : List TimeRecord) .clock_out "01/01/2024" "17:00:00"
        (some "48.1") (some "11.5")).1 =
      [{ date := "01/01/2024", clock_in := "", clock_out := "17:00:00",
         latIn := "", lonIn := "", latOut := "48.1", lonOut := "11.5",
         duration := "", description := "" }] :=
  ⟨((C3_update_frame _ "01/01/2024" "08:00:00" (some "48.1") (some "11.5")).1
      0 (by decide)).1.1,
   by simpa using
     ((C3_update_frame [] "01/01/2024" "17:00:00" (some "48.1")
       (some "11.5")).2 rfl).2⟩

/-- C8: saving a user configuration and immediately reading it back returns
exactly the saved field values (the `config.get(key, "")` defaults applied),
with Last Updated equal to the save timestamp — hence at least the save
time. Holds whether the user already had a config row (updated in place) or
not (appended). -/
theorem C8_config_round_trip (sheet : List ConfigRow) (uid now_str : String)
    (cfg : TempConfig) :
    get_user_config (some (save_user_config sheet uid cfg now_str)) uid =
      some { username := cfg.username.getD "",
             project_name := cfg.project_name.getD "",
             project_location := cfg.project_location.getD "",
             contractor_name := cfg.contractor_name.getD "",
             lunch_duration := cfg.lunch_duration.getD "",
             last_updated := now_str } := by
  rcases h : sheet.findIdx? (fun r => r.user_id == uid) with _ | i
  · have hn : sheet.find? (fun r => r.user_id == uid) = none :=
      List.find?_eq_none.mpr
        (by intro x hx; simp [List.findIdx?_eq_none_iff.mp h x hx])
    have hf := find?_append_singleton (fun r => r.user_id == uid) sheet
      { user_id := uid, username := cfg.username.getD "",
        project_name := cfg.project_name.getD "",
        project_location := cfg.project_location.getD "",
        contractor_name := cfg.contractor_name.getD "",
        lunch_duration := cfg.lunch_duration.getD "",
        last_updated := now_str } hn (beq_self_eq_true uid)
    simp only [save_user_config, h, get_user_config, hf]
  · obtain ⟨hi, -, hlt⟩ := findIdx?_some_getD h
    have hf := find?_set_getD (fun r => r.user_id == uid) sheet i
      { user_id := uid, username := cfg.username.getD "",
        project_name := cfg.project_name.getD "",
        project_location := cfg.project_location.getD "",
        contractor_name := cfg.contractor_name.getD "",
        lunch_duration := cfg.lunch_duration.getD "",
        last_updated := now_str } (beq_self_eq_true uid) hlt hi
    simp only [save_user_config, h, get_user_config, hf]

/-- C4: `get_last_action` returns `none` for a missing sheet and for a sheet
with no data rows; otherwise the row inspected is a member of the sheet
whose Date string is maximal in the lexical string order (the first row of
the descending sort), and the result is clock_out when that row's clock_out
cell is non-empty, else clock_in when non-empty, else `none`. -/
theorem C4_get_last_action :
    get_last_action none = none ∧
    get_last_action (some ([] : List TimeRecord)) = none ∧
    ∀ records : List TimeRecord, records ≠ [] →
      ∃ r, r ∈ records ∧ (∀ s, s ∈ records → s.date ≤ r.date) ∧
        get_last_action (some records) =
          (if r.clock_out ≠ "" then some ("clock_out", r.clock_out)
           else if r.clock_in ≠ "" then some ("clock_in", r.clock_in)
           else none) := by
  refine ⟨rfl, rfl, ?_⟩
  intro records hne
  have htrans : ∀ a b c : TimeRecord,
      (fun a b => decide (b.date ≤ a.date)) a b →
      (fun a b => decide (b.date ≤ a.date)) b c →
      (fun a b => decide (b.date ≤ a.date)) a c := by
    intro a b c hab hbc
    simp only [decide_eq_true_eq] at *
    exact le_trans hbc hab
  have htotal : ∀ a b : TimeRecord,
      ((fun a b => decide (b.date ≤ a.date)) a b ||
       (fun a b => decide (b.date ≤ a.date)) b a) := by
    intro a b
    simp only [Bool.or_eq_true, decide_eq_true_eq]
    exact le_total b.date a.date
  rcases hs : records.mergeSort (fun a b => decide (b.date ≤ a.date))
    with _ | ⟨r, tail⟩
  · exfalso
    have hlen := congrArg List.length hs
    simp at hlen
    exact hne hlen
  · refine ⟨r, ?_, ?_, ?_⟩
    · have hmem : r ∈ records.mergeSort (fun a b => decide (b.date ≤ a.date)) := by
        rw [hs]; exact List.mem_cons_self r tail
      exact List.mem_mergeSort.mp hmem
    · intro s hsmem
      have hsmem' : s ∈ records.mergeSort (fun a b => decide (b.date ≤ a.date)) :=
        List.mem_mergeSort.mpr hsmem
      rw [hs] at hsmem'
      rcases List.mem_cons.mp hsmem' with hrfl | htail
      · exact le_of_eq (by rw [hrfl])
      · have hpw := List.sorted_mergeSort htrans htotal records
        rw [hs] at hpw
        have hle := (List.pairwise_cons.mp hpw).1 s htail
        simpa using hle
    · have hie : records.isEmpty = false := by
        cases records
        · exact absurd rfl hne
        · rfl
      simp only [get_last_action, hie, Bool.false_eq_true, if_false, hs,
        List.head?]

/-- Witness for C4: a one-row sheet with both cells filled reports the
clock-out action. -/
theorem C4_get_last_action_witness :
    get_last_action (some [{ date := "01/01/2024", clock_in := "08:00:00",
                             clock_out := "17:00:00", latIn := "", lonIn := "",
                             latOut := "", lonOut := "", duration := "",
                             description := "" }])
      = some ("clock_out", "17:00:00") := by
  obtain ⟨r, hm, -, he⟩ := C4_get_last_action.2.2
    [{ date := "01/01/2024", clock_in := "08:00:00", clock_out := "17:00:00",
       latIn := "", lonIn := "", latOut := "", lonOut := "", duration := "",
       description := "" }] (by simp)
  rw [List.mem_singleton] at hm
  subst hm
  rw [if_pos (by decide)] at he
  exact he

/-- C10: a clock-out with no row for today is accepted: `add_time_record`
appends a row whose clock_out and out-coordinates are populated while
clock_in stays blank, and `get_last_action` over such a row reports a
clock_out action. -/
theorem C10_clock_out_without_clock_in (records : List TimeRecord)
    (d t : String) (lat lon : Option String)
    (hnone : records.findIdx? (fun r => r.date == d) = none) (ht : t ≠ "") :
    (add_time_record records .clock_out d t lat lon).1 =
      records ++ [{ date := d, clock_in := "", clock_out := t, latIn := "",
                    lonIn := "", latOut := lat.getD "", lonOut := lon.getD "",
                    duration := "", description := "" }] ∧
    get_last_action (some [{ date := d, clock_in := "", clock_out := t,
                             latIn := "", lonIn := "", latOut := lat.getD "",
                             lonOut := lon.getD "", duration := "",
                             description := "" }]) =
      some ("clock_out", t) := by
  constructor
  · simp only [add_time_record, hnone]
  · simp [get_last_action, ht]

/-- Witness for C10 on an empty sheet with concrete coordinates. -/
theorem C10_clock_out_without_clock_in_witness :
    (add_time_record ([] : List TimeRecord) .clock_out "01/01/2024" "17:00:00"
        (some "48.1") (some "11.5")).1 =
      [] ++ [{ date := "01/01/2024", clock_in := "", clock_out := "17:00:00",
               latIn := "", lonIn := "", latOut := "48.1", lonOut := "11.5",
               duration := "", description := "" }] ∧
    get_last_action (some [{ date := "01/01/2024", clock_in := "",
                             clock_out := "17:00:00", latIn := "", lonIn := "",
                             latOut := "48.1", lonOut := "11.5",
                             duration := "", description := "" }]) =
      some ("clock_out", "17:00:00") :=
  C10_clock_out_without_clock_in [] "01/01/2024" "17:00:00"
    (some "48.1") (some "11.5") rfl (by decide)

end Tracker
